import Mathlib

/-!
Verification of the e-commerce analytics core (data_loader.py,
business_metrics.py, run_analysis.py) against its design document.

The pandas dataframes are modelled as lists of records over exact
rationals; a null cell (NaN/NaT) is modelled as `none` of an `Option`
type.  Each definition below mirrors one Python function of the source;
float arithmetic is modelled over ℚ, which is exact wherever the claims
under study quantify (no claim here depends on rounding).
-/

/-- Calendar timestamp at second granularity, mirroring pandas
Timestamp values as used by the pipeline (purchase timestamps carry
year, month, day, hour, minute, second). Ordering is chronological,
i.e. lexicographic on the six fields. -/
structure Timestamp where
  year : Int
  month : Nat
  day : Nat
  hour : Nat
  minute : Nat
  second : Nat
deriving DecidableEq, Repr

/-- Chronological (lexicographic) order on timestamps, as pandas
compares Timestamp values. -/
def Timestamp.le (a b : Timestamp) : Bool :=
  if a.year ≠ b.year then a.year < b.year
  else if a.month ≠ b.month then a.month < b.month
  else if a.day ≠ b.day then a.day < b.day
  else if a.hour ≠ b.hour then a.hour < b.hour
  else if a.minute ≠ b.minute then a.minute < b.minute
  else a.second ≤ b.second

/-- Whether a Gregorian year is a leap year (pandas calendar). -/
def isLeapYear (y : Int) : Bool :=
  (y % 4 == 0 && y % 100 != 0) || y % 400 == 0

/-- Number of days of a calendar month (1..12), as pandas Timestamp
arithmetic uses. -/
def daysInMonth (y : Int) (m : Nat) : Nat :=
  if m = 2 then (if isLeapYear y then 29 else 28)
  else if m = 4 ∨ m = 6 ∨ m = 9 ∨ m = 11 then 30
  else 31

/-- One day earlier, mirroring `ts - pd.Timedelta(days=1)` (time of day
unchanged). -/
def Timestamp.subDay (t : Timestamp) : Timestamp :=
  if 1 < t.day then { t with day := t.day - 1 }
  else if 1 < t.month then
    { t with month := t.month - 1, day := daysInMonth t.year (t.month - 1) }
  else
    { t with year := t.year - 1, month := 12, day := 31 }

/-- One row of the enriched sales fact table (one line item), carrying
the columns the metric functions read.  Nullable columns are Options:
`product_category_name` is null for unmatched products (left join),
`review_score` for unreviewed orders, `delivery_speed_days` (the float
result of `.dt.days`) is NaN when the delivered date is missing. -/
structure SalesRow where
  order_id : Nat
  price : ℚ
  product_category_name : Option String
  review_score : Option ℚ
  delivery_speed_days : Option ℚ
  year : Int
  month : Int
  order_purchase_timestamp : Timestamp
deriving DecidableEq, Repr

/-- Pandas Series.mean(): null entries are skipped, the mean of an
empty (or all-null) series is NaN, modelled as none. -/
def meanQ (l : List ℚ) : Option ℚ :=
  if l.isEmpty then none else some (l.sum / l.length)

/-- business_metrics.calculate_total_revenue: sales_data['price'].sum(). -/
def calculate_total_revenue (sales_data : List SalesRow) : ℚ :=
  (sales_data.map SalesRow.price).sum

/-- Distinct order ids in groupby key order (pandas groupby sorts its
keys ascending). -/
def sortedOrderIds (sales_data : List SalesRow) : List Nat :=
  List.insertionSort (fun a b => a ≤ b) (sales_data.map SalesRow.order_id).dedup

/-- business_metrics.calculate_total_orders:
sales_data['order_id'].nunique(). -/
def calculate_total_orders (sales_data : List SalesRow) : Nat :=
  (sales_data.map SalesRow.order_id).dedup.length

/-- business_metrics.calculate_average_order_value:
groupby('order_id')['price'].sum() then .mean(). -/
def calculate_average_order_value (sales_data : List SalesRow) : Option ℚ :=
  meanQ ((sortedOrderIds sales_data).map (fun o =>
    ((sales_data.filter (fun r => r.order_id = o)).map SalesRow.price).sum))

/-- business_metrics.calculate_items_per_order:
groupby('order_id').size() then .mean(). -/
def calculate_items_per_order (sales_data : List SalesRow) : Option ℚ :=
  meanQ ((sortedOrderIds sales_data).map (fun o =>
    ((sales_data.filter (fun r => r.order_id = o)).length : ℚ)))

/-- business_metrics.calculate_average_review_score:
sales_data['review_score'].mean() — the mean over all rows, null scores
skipped by pandas mean; the line-item rows are NOT collapsed to one per
order. -/
def calculate_average_review_score (sales_data : List SalesRow) : Option ℚ :=
  meanQ (sales_data.filterMap SalesRow.review_score)

/-- Keep the first row of each order_id, dropping the later line items
of an already-seen order. -/
def dedupByOrder (seen : List Nat) : List SalesRow → List SalesRow
  | [] => []
  | r :: rs =>
      if r.order_id ∈ seen then dedupByOrder seen rs
      else r :: dedupByOrder (r.order_id :: seen) rs

/-- Modelled from the spec wording of C1: first deduplicate the fact
table to one row per order_id (first occurrence), then take the mean of
review_score with null scores excluded.  Compared against the source
definition above. -/
def average_review_score_dedup (sales_data : List SalesRow) : Option ℚ :=
  meanQ ((dedupByOrder [] sales_data).filterMap SalesRow.review_score)

/-- business_metrics.calculate_revenue_growth: 0.0 when the previous
revenue is zero, otherwise the relative change. -/
def calculate_revenue_growth (current_revenue previous_revenue : ℚ) : ℚ :=
  if previous_revenue = 0 then 0
  else (current_revenue - previous_revenue) / previous_revenue

/-- C5: revenue_growth(x, 0) = 0.0 for every x, including negative x;
for a nonzero previous value it is (current - previous) / previous. -/
theorem revenue_growth_zero_base :
    (∀ x : ℚ, calculate_revenue_growth x 0 = 0) ∧
    (∀ c p : ℚ, p ≠ 0 → calculate_revenue_growth c p = (c - p) / p) := by
  constructor
  · intro x
    simp [calculate_revenue_growth]
  · intro c p hp
    simp [calculate_revenue_growth, hp]

theorem revenue_growth_zero_base_witness :
    calculate_revenue_growth (-7) 0 = 0 ∧ calculate_revenue_growth 6 4 = 1/2 := by
  refine ⟨revenue_growth_zero_base.1 (-7), ?_⟩
  have h := revenue_growth_zero_base.2 6 4 (by norm_num)
  rw [h]
  norm_num

/-! ### C9: concrete two-order scenario -/

/-- Row builder for concrete test tables: order id, price, category,
review score, delivery days; purchase timestamp fixed inside 2017-03. -/
def mkRow (o : Nat) (p : ℚ) (c : Option String) (s : Option ℚ)
    (d : Option ℚ) : SalesRow :=
  { order_id := o, price := p, product_category_name := c,
    review_score := s, delivery_speed_days := d,
    year := 2017, month := 3,
    order_purchase_timestamp := ⟨2017, 3, 15, 12, 0, 0⟩ }

/-- The C9 scenario table: order 1 with line items priced 10 and 20,
order 2 with one line item priced 50. -/
def scenarioC9 : List SalesRow :=
  [mkRow 1 10 (some "a") (some 4) (some 2),
   mkRow 1 20 (some "a") (some 4) (some 2),
   mkRow 2 50 (some "b") (some 5) (some 6)]

/-- C9: on the two-order scenario, total revenue is 80, there are 2
distinct orders, the average order value is (30+50)/2 = 40, and the
mean number of items per order is 1.5. -/
theorem scenario_two_orders_metrics :
    calculate_total_revenue scenarioC9 = 80 ∧
    calculate_total_orders scenarioC9 = 2 ∧
    calculate_average_order_value scenarioC9 = some 40 ∧
    calculate_items_per_order scenarioC9 = some (3/2) := by
  refine ⟨?_, ?_, ?_, ?_⟩
  · norm_num [calculate_total_revenue, scenarioC9, mkRow]
  · decide
  · norm_num [calculate_average_order_value, scenarioC9, mkRow, sortedOrderIds,
      meanQ, List.insertionSort, List.orderedInsert, List.dedup, List.filter]
  · norm_num [calculate_items_per_order, scenarioC9, mkRow, sortedOrderIds,
      meanQ, List.insertionSort, List.orderedInsert, List.dedup, List.filter]

/-! ### C1: average review score and order deduplication -/

/-- Table refuting the dedup reading of average_review_score: order 1
has two line items with score 5, order 2 has one line item with
score 1. -/
def exC1 : List SalesRow :=
  [mkRow 1 10 (some "a") (some 5) (some 2),
   mkRow 1 20 (some "a") (some 5) (some 2),
   mkRow 2 50 (some "b") (some 1) (some 6)]

/-- C1 counterexample: the source computes the plain mean over line
items, 11/3, while the mean over rows deduplicated to one per order_id
is 3 — so average_review_score is NOT the deduplicated mean. -/
theorem average_review_score_not_dedup :
    calculate_average_review_score exC1 = some (11/3) ∧
    average_review_score_dedup exC1 = some 3 ∧
    calculate_average_review_score exC1 ≠ average_review_score_dedup exC1 := by
  refine ⟨?_, ?_, ?_⟩ <;>
    norm_num [calculate_average_review_score, average_review_score_dedup,
      exC1, mkRow, meanQ, dedupByOrder, List.filterMap]

/-- Every element of a list equal to a constant gives mean that
constant (nonempty list). -/
theorem meanQ_const (l : List ℚ) (c : ℚ) (hne : l ≠ [])
    (h : ∀ x ∈ l, x = c) : meanQ l = some c := by
  have hsum : l.sum = l.length • c := List.sum_eq_card_nsmul l c h
  have hlen : (l.length : ℚ) ≠ 0 := by
    have : l.length ≠ 0 := by
      simpa [List.length_eq_zero] using hne
    exact_mod_cast this
  have hem : l.isEmpty = false := by
    simp [List.isEmpty_iff, hne]
  simp only [meanQ, hem, Bool.false_eq_true, if_false]
  congr 1
  rw [hsum, nsmul_eq_mul, mul_comm, mul_div_assoc, div_self hlen, mul_one]

/-- C1 (amended): average_review_score is the mean over all line-item
rows with null scores excluded (no per-order dedup); still, for a fact
table of k line items that all carry review_score 5 — one order split
into k items — the result is 5 for every k ≥ 1. -/
theorem average_review_score_all_fives (k : ℕ) (rows : List SalesRow)
    (hk : 1 ≤ k) (hlen : rows.length = k)
    (h5 : ∀ r ∈ rows, r.review_score = some (5 : ℚ)) :
    calculate_average_review_score rows = some 5 := by
  have hne : rows ≠ [] := by
    intro hnil
    rw [hnil] at hlen
    simp at hlen
    omega
  obtain ⟨r0, rest, rfl⟩ := List.exists_cons_of_ne_nil hne
  apply meanQ_const
  · have : (5 : ℚ) ∈ (r0 :: rest).filterMap SalesRow.review_score := by
      rw [List.mem_filterMap]
      exact ⟨r0, List.mem_cons_self r0 rest, h5 r0 (List.mem_cons_self r0 rest)⟩
    exact List.ne_nil_of_mem this
  · intro x hx
    rw [List.mem_filterMap] at hx
    obtain ⟨a, ha, hax⟩ := hx
    have := h5 a ha
    rw [this] at hax
    exact (Option.some_inj.mp hax).symm

theorem average_review_score_all_fives_witness :
    calculate_average_review_score
      [mkRow 7 10 none (some 5) none, mkRow 7 12 none (some 5) none,
       mkRow 7 9 none (some 5) none] = some 5 :=
  average_review_score_all_fives 3
    [mkRow 7 10 none (some 5) none, mkRow 7 12 none (some 5) none,
     mkRow 7 9 none (some 5) none]
    (by decide) (by decide) (by decide)

/-! ### C2: delivery speed buckets and null days -/

/-- Python comparison of a possibly-NaN float with a constant: any
comparison with NaN is False. -/
def nanLeQ (d : Option ℚ) (c : ℚ) : Bool :=
  match d with
  | none => false
  | some x => x ≤ c

/-- data_loader.categorize_delivery_speed: days ≤ 3, then days ≤ 7,
else the last bucket.  The argument is the possibly-NaN float column
value it is applied to in run_analysis. -/
def categorize_delivery_speed (days : Option ℚ) : String :=
  if nanLeQ days 3 then "1-3 days"
  else if nanLeQ days 7 then "4-7 days"
  else "8+ days"

/-- run_analysis lines 101-102: the delivery_category column is the
elementwise application of categorize_delivery_speed to
delivery_speed_days. -/
def assign_delivery_category (rows : List SalesRow) : List (SalesRow × String) :=
  rows.map (fun r => (r, categorize_delivery_speed r.delivery_speed_days))

/-- Modelled from the spec wording of C2 for comparison: null days give
a null category, non-null days are bucketed by the stated thresholds. -/
def delivery_category_spec (days : Option ℚ) : Option String :=
  match days with
  | none => none
  | some d =>
      some (if d ≤ 3 then "1-3 days" else if d ≤ 7 then "4-7 days" else "8+ days")

/-- C2 counterexample: on a row with null delivery_speed_days the code
assigns the bucket string of the last branch, not a null category as
the claim and the spec definition require. -/
theorem delivery_category_null_defaults_to_bucket :
    categorize_delivery_speed none = "8+ days" ∧
    delivery_category_spec none = none ∧
    assign_delivery_category [mkRow 9 10 none none none] =
      [(mkRow 9 10 none none none, "8+ days")] := by
  refine ⟨rfl, rfl, rfl⟩

/-- C2 (amended): rows with null delivery_speed_days are assigned the
"8+ days" bucket (a NaN comparison is False, so both branch tests
fail); for non-null days the buckets are as claimed: days ≤ 3 gives
"1-3 days", 3 < days ≤ 7 gives "4-7 days", days > 7 gives "8+ days". -/
theorem categorize_delivery_speed_cases :
    (∀ d : Option ℚ, d = none → categorize_delivery_speed d = "8+ days") ∧
    (∀ x : ℚ,
      (x ≤ 3 → categorize_delivery_speed (some x) = "1-3 days") ∧
      (3 < x → x ≤ 7 → categorize_delivery_speed (some x) = "4-7 days") ∧
      (7 < x → categorize_delivery_speed (some x) = "8+ days")) := by
  refine ⟨?_, ?_⟩
  · intro d hd
    subst hd
    rfl
  · intro x
    refine ⟨?_, ?_, ?_⟩
    · intro h
      simp [categorize_delivery_speed, nanLeQ, h]
    · intro h1 h2
      simp [categorize_delivery_speed, nanLeQ, not_le.mpr h1, h2]
    · intro h
      have h3 : ¬ x ≤ 3 := by linarith
      have h7 : ¬ x ≤ 7 := by linarith
      simp [categorize_delivery_speed, nanLeQ, h3, h7]

theorem categorize_delivery_speed_cases_witness :
    categorize_delivery_speed none = "8+ days" ∧
    categorize_delivery_speed (some 2) = "1-3 days" ∧
    categorize_delivery_speed (some 5) = "4-7 days" ∧
    categorize_delivery_speed (some 9) = "8+ days" :=
  ⟨categorize_delivery_speed_cases.1 none rfl,
   (categorize_delivery_speed_cases.2 2).1 (by norm_num),
   (categorize_delivery_speed_cases.2 5).2.1 (by norm_num) (by norm_num),
   (categorize_delivery_speed_cases.2 9).2.2 (by norm_num)⟩

/-! ### C6, C8, C10: the date-range filter -/

/-- data_loader.filter_by_date_range.  The copy and the re-parse of the
date column are value-identities on an already-canonical column (the
object-level frame effect is modelled separately below); the row
predicate is the conjunction of the two boundary comparisons. -/
def filter_by_date_range (df : List SalesRow) (start_year : Int)
    (start_month : Nat) (end_year : Int) (end_month : Nat) : List SalesRow :=
  let start_date : Timestamp := ⟨start_year, start_month, 1, 0, 0, 0⟩
  let end_date0 : Timestamp :=
    if end_month = 12 then Timestamp.subDay ⟨end_year + 1, 1, 1, 0, 0, 0⟩
    else Timestamp.subDay ⟨end_year, end_month + 1, 1, 0, 0, 0⟩
  let end_date : Timestamp :=
    { end_date0 with hour := 23, minute := 59, second := 59 }
  df.filter (fun r =>
    Timestamp.le start_date r.order_purchase_timestamp &&
    Timestamp.le r.order_purchase_timestamp end_date)

/-- Modelled from the spec wording of C6 for comparison: the last
instant (23:59:59) of the last calendar day of end_month in
end_year. -/
def spec_end_of_range (end_year : Int) (end_month : Nat) : Timestamp :=
  ⟨end_year, end_month, daysInMonth end_year end_month, 23, 59, 59⟩

/-- The end boundary computed by the code (first day of the next month
minus one day, plus 23:59:59) is the spec boundary, for any valid
month. -/
theorem end_boundary_eq (ey : Int) (em : Nat) (h1 : 1 ≤ em) (h2 : em ≤ 12) :
    ({ (if em = 12 then Timestamp.subDay ⟨ey + 1, 1, 1, 0, 0, 0⟩
        else Timestamp.subDay ⟨ey, em + 1, 1, 0, 0, 0⟩) with
       hour := 23, minute := 59, second := 59 } : Timestamp) =
      spec_end_of_range ey em := by
  by_cases h12 : em = 12
  · subst h12
    simp [Timestamp.subDay, spec_end_of_range, daysInMonth, isLeapYear]
  · have hm : 1 < em + 1 := by omega
    simp only [h12, if_false, Timestamp.subDay]
    norm_num [hm, spec_end_of_range]

/-- C6: a row passes filter_by_date_range exactly when it is in the
input and its purchase timestamp lies between the first instant of
start_year-start_month-01 and 23:59:59 of the last calendar day of
end_month in end_year, both ends inclusive (December wraps through
January 1 of the following year). -/
theorem filter_by_date_range_mem (rows : List SalesRow) (sy : Int) (sm : Nat)
    (ey : Int) (em : Nat) (h1 : 1 ≤ em) (h2 : em ≤ 12) (r : SalesRow) :
    r ∈ filter_by_date_range rows sy sm ey em ↔
      (r ∈ rows ∧
       Timestamp.le ⟨sy, sm, 1, 0, 0, 0⟩ r.order_purchase_timestamp = true ∧
       Timestamp.le r.order_purchase_timestamp (spec_end_of_range ey em) = true) := by
  rw [filter_by_date_range]
  simp only [end_boundary_eq ey em h1 h2]
  simp [List.mem_filter, Bool.and_eq_true]

theorem filter_by_date_range_mem_witness :
    mkRow 1 10 none none none ∈
        filter_by_date_range [mkRow 1 10 none none none] 2017 1 2017 3 ↔
      (mkRow 1 10 none none none ∈ [mkRow 1 10 none none none] ∧
       Timestamp.le ⟨2017, 1, 1, 0, 0, 0⟩
         (mkRow 1 10 none none none).order_purchase_timestamp = true ∧
       Timestamp.le (mkRow 1 10 none none none).order_purchase_timestamp
         (spec_end_of_range 2017 3) = true) :=
  filter_by_date_range_mem [mkRow 1 10 none none none] 2017 1 2017 3
    (by decide) (by decide) (mkRow 1 10 none none none)

/-- C8: filter_by_date_range is idempotent — filtering its own output
again with the same bounds returns the identical list of rows. -/
theorem filter_by_date_range_idempotent (rows : List SalesRow) (sy : Int)
    (sm : Nat) (ey : Int) (em : Nat) :
    filter_by_date_range (filter_by_date_range rows sy sm ey em) sy sm ey em =
      filter_by_date_range rows sy sm ey em := by
  simp only [filter_by_date_range, List.filter_filter, Bool.and_self]

/-- Object heap: Python dataframe objects, addressed by index; models
object identity for the frame-effect claim C10. -/
abbrev Heap := List (List SalesRow)

/-- Object-level elaboration of filter_by_date_range: the local name df
is rebound to a fresh copy, the datetime re-parse writes that copy in
place (a value-identity on an already-canonical column, modelled as a
map of the identity), and the boolean-mask selection allocates the
result.  Returns the final heap and the address of the result. -/
def filter_by_date_range_prog (heap : Heap) (dfAddr : Nat) (sy : Int)
    (sm : Nat) (ey : Int) (em : Nat) : Heap × Nat :=
  let arg := heap.getD dfAddr []
  let heap1 := heap ++ [arg]
  let copyAddr := heap.length
  let heap2 := heap1.set copyAddr ((heap1.getD copyAddr []).map id)
  let res := filter_by_date_range (heap2.getD copyAddr []) sy sm ey em
  (heap2 ++ [res], heap2.length)

/-- C10: filter_by_date_range does not mutate its argument — every
object that existed before the call, the argument dataframe included,
is unchanged in the final heap; the returned address holds the filter
of the argument rows, computed on a fresh copy. -/
theorem filter_by_date_range_prog_frame (heap : Heap) (a dfAddr : Nat)
    (sy : Int) (sm : Nat) (ey : Int) (em : Nat) (ha : a < heap.length) :
    (filter_by_date_range_prog heap dfAddr sy sm ey em).1[a]? = heap[a]? ∧
    (filter_by_date_range_prog heap dfAddr sy sm ey em).1[
        (filter_by_date_range_prog heap dfAddr sy sm ey em).2]? =
      some (filter_by_date_range (heap.getD dfAddr []) sy sm ey em) := by
  have hne : heap.length ≠ a := by omega
  constructor
  · simp only [filter_by_date_range_prog]
    rw [List.getElem?_append]
    have hlen : a < ((heap ++ [heap.getD dfAddr []]).set heap.length
        (((heap ++ [heap.getD dfAddr []]).getD heap.length []).map id)).length := by
      simp
      omega
    rw [if_pos hlen, List.getElem?_set_ne hne, List.getElem?_append,
      if_pos ha]
  · simp only [filter_by_date_range_prog]
    rw [List.getElem?_concat_length]
    have hlt : heap.length < (heap ++ [heap.getD dfAddr []]).length := by
      simp
    have hcopy : ((heap ++ [heap.getD dfAddr []]).set heap.length
        (((heap ++ [heap.getD dfAddr []]).getD heap.length []).map id)).getD
          heap.length [] = heap.getD dfAddr [] := by
      rw [List.getD_eq_getElem?_getD, List.getElem?_set_eq_of_lt _ hlt]
      simp [List.getD_eq_getElem?_getD, List.getElem?_concat_length]
    rw [hcopy]

/-! ### C4: month-over-month growth -/

/-- One row of the revenue_by_period('year-month') table feeding
calculate_mom_growth: (year, month, revenue). -/
abbrev MonthRow := Int × Int × ℚ

/-- One cell of pandas Series.pct_change(): (cur - prev)/prev.  A zero
base yields a non-finite float (inf, or NaN for 0/0), modelled none;
for a nonzero base the float value is exact in ℚ. -/
def pctChangeStep (prev cur : ℚ) : Option ℚ :=
  if prev = 0 then none else some ((cur - prev) / prev)

/-- Tail of pct_change: each cell is the change from the previous
element, in the given row order. -/
def pctChangeAux (prev : ℚ) : List ℚ → List (Option ℚ)
  | [] => []
  | x :: xs => pctChangeStep prev x :: pctChangeAux x xs

/-- pandas Series.pct_change(): the first cell is NaN, later cells are
the change from the directly preceding element, in the row order of the
series — no sorting. -/
def pctChange : List ℚ → List (Option ℚ)
  | [] => []
  | x :: xs => none :: pctChangeAux x xs

/-- business_metrics.calculate_mom_growth: copies the frame and appends
mom_growth = revenue.pct_change(); the rows stay in their input
order. -/
def calculate_mom_growth (revenue_by_month : List MonthRow) :
    List (MonthRow × Option ℚ) :=
  revenue_by_month.zip (pctChange (revenue_by_month.map (fun r => r.2.2)))

/-- C4 counterexample: on the two-month table {(2017,1,100),
(2017,2,200)} the growth column depends on the input row order — after
swapping the rows the result is not a permutation of the original
result, so mom_growth does not re-sort by (year, month). -/
theorem mom_growth_not_order_invariant :
    calculate_mom_growth [(2017, 1, 100), (2017, 2, 200)] =
      [((2017, 1, 100), none), ((2017, 2, 200), some 1)] ∧
    calculate_mom_growth [(2017, 2, 200), (2017, 1, 100)] =
      [((2017, 2, 200), none), ((2017, 1, 100), some (-(1/2)))] ∧
    ¬ (calculate_mom_growth [(2017, 2, 200), (2017, 1, 100)]).Perm
        (calculate_mom_growth [(2017, 1, 100), (2017, 2, 200)]) := by
  have h1 : calculate_mom_growth [((2017 : Int), (1 : Int), (100 : ℚ)), (2017, 2, 200)] =
      [((2017, 1, 100), none), ((2017, 2, 200), some 1)] := by
    norm_num [calculate_mom_growth, pctChange, pctChangeAux, pctChangeStep,
      List.zip]
  have h2 : calculate_mom_growth [((2017 : Int), (2 : Int), (200 : ℚ)), (2017, 1, 100)] =
      [((2017, 2, 200), none), ((2017, 1, 100), some (-(1/2)))] := by
    norm_num [calculate_mom_growth, pctChange, pctChangeAux, pctChangeStep,
      List.zip]
  refine ⟨h1, h2, ?_⟩
  intro hperm
  rw [h1, h2] at hperm
  have hmem := hperm.mem_iff (a := (((2017 : Int), (2 : Int), (200 : ℚ)), none))
  simp at hmem

/-- Length of the pct_change tail. -/
theorem pctChangeAux_length (p : ℚ) (l : List ℚ) :
    (pctChangeAux p l).length = l.length := by
  induction l generalizing p with
  | nil => rfl
  | cons x xs ih => simp [pctChangeAux, ih]

/-- pct_change preserves the series length. -/
theorem pctChange_length (l : List ℚ) : (pctChange l).length = l.length := by
  cases l with
  | nil => rfl
  | cons x xs => simp [pctChange, pctChangeAux_length]

/-- Number of defined cells in the pct_change tail when no base is
zero. -/
theorem pctChangeAux_countP (p : ℚ) (l : List ℚ) (hp : p ≠ 0)
    (hl : ∀ x ∈ l, x ≠ 0) :
    (pctChangeAux p l).countP (fun x => x.isSome) = l.length := by
  induction l generalizing p with
  | nil => rfl
  | cons x xs ih =>
      have hx : x ≠ 0 := hl x (List.mem_cons_self x xs)
      have hxs : ∀ y ∈ xs, y ≠ 0 := fun y hy => hl y (List.mem_cons_of_mem x hy)
      simp [pctChangeAux, List.countP_cons, pctChangeStep, hp, ih x hx hxs]

/-- Indexing the pct_change tail: cell i is the step from element i-1
of (prev :: l) to element i of l. -/
theorem pctChangeAux_getElem? (l : List ℚ) (p : ℚ) (i : Nat) :
    (pctChangeAux p l)[i]? =
      match (p :: l)[i]?, l[i]? with
      | some prev, some cur => some (pctChangeStep prev cur)
      | _, _ => none := by
  induction l generalizing p i with
  | nil => cases i <;> rfl
  | cons x xs ih =>
      cases i with
      | zero => simp [pctChangeAux]
      | succ j => simpa [pctChangeAux] using ih x j

/-- Indexing pct_change past the first cell: cell i+1 is the step from
element i to element i+1. -/
theorem pctChange_getElem?_succ (l : List ℚ) (i : Nat) :
    (pctChange l)[i + 1]? =
      match l[i]?, l[i + 1]? with
      | some prev, some cur => some (pctChangeStep prev cur)
      | _, _ => none := by
  cases l with
  | nil => cases i <;> rfl
  | cons x xs => simpa [pctChange] using pctChangeAux_getElem? xs x i

/-- C4 (amended): mom_growth keeps its rows in input order (no internal
re-sort — the counterexample above shows reordering the input changes
the result); on a nonempty table of N rows with nonzero revenues the
first growth cell is null, the other N-1 cells are defined, and cell
i+1 is the percent change from row i to row i+1 of the INPUT order. -/
theorem mom_growth_input_order (rows : List MonthRow) (hne : rows ≠ [])
    (hnz : ∀ r ∈ rows, r.2.2 ≠ 0) :
    (calculate_mom_growth rows).map Prod.fst = rows ∧
    ((calculate_mom_growth rows).head?).map Prod.snd = some none ∧
    (calculate_mom_growth rows).countP (fun x => x.2.isSome) =
      rows.length - 1 ∧
    (∀ (i : Nat) (pr cur : MonthRow), rows[i]? = some pr →
      rows[i + 1]? = some cur →
      (calculate_mom_growth rows)[i + 1]? =
        some (cur, some ((cur.2.2 - pr.2.2) / pr.2.2))) := by
  have hlen : (pctChange (rows.map (fun r => r.2.2))).length = rows.length := by
    rw [pctChange_length, List.length_map]
  refine ⟨?_, ?_, ?_, ?_⟩
  · exact List.map_fst_zip rows _ (le_of_eq hlen.symm)
  · obtain ⟨r0, rest, rfl⟩ := List.exists_cons_of_ne_nil hne
    simp [calculate_mom_growth, pctChange, List.zip]
  · have hsnd : (calculate_mom_growth rows).map Prod.snd =
        pctChange (rows.map (fun r => r.2.2)) :=
      List.map_snd_zip rows _ (le_of_eq hlen)
    have := List.countP_map (fun x : Option ℚ => x.isSome) Prod.snd
      (calculate_mom_growth rows)
    rw [hsnd] at this
    have hcount : (pctChange (rows.map (fun r => r.2.2))).countP
        (fun x => x.isSome) = rows.length - 1 := by
      obtain ⟨r0, rest, rfl⟩ := List.exists_cons_of_ne_nil hne
      have h0 : r0.2.2 ≠ 0 := hnz r0 (List.mem_cons_self r0 rest)
      have hr : ∀ x ∈ rest.map (fun r => r.2.2), x ≠ 0 := by
        intro x hx
        rw [List.mem_map] at hx
        obtain ⟨r, hr, rfl⟩ := hx
        exact hnz r (List.mem_cons_of_mem r0 hr)
      simp [pctChange, List.countP_cons,
        pctChangeAux_countP r0.2.2 (rest.map (fun r => r.2.2)) h0 hr]
    calc (calculate_mom_growth rows).countP (fun x => x.2.isSome)
        = ((calculate_mom_growth rows).map Prod.snd).countP
            (fun x => x.isSome) := by
          rw [List.countP_map]
          rfl
      _ = rows.length - 1 := by rw [hsnd, hcount]
  · intro i pr cur hpr hcur
    have hprm : pr ∈ rows := List.getElem?_mem hpr
    have hpnz : pr.2.2 ≠ 0 := hnz pr hprm
    rw [calculate_mom_growth, List.getElem?_zip_eq_some]
    refine ⟨hcur, ?_⟩
    rw [pctChange_getElem?_succ, List.getElem?_map, List.getElem?_map, hpr, hcur]
    simp [pctChangeStep, hpnz]

theorem mom_growth_input_order_witness :
    (calculate_mom_growth [((2017 : Int), (1 : Int), (100 : ℚ)),
        (2017, 2, 200)]).map Prod.fst =
      [((2017 : Int), (1 : Int), (100 : ℚ)), (2017, 2, 200)] ∧
    ((calculate_mom_growth [((2017 : Int), (1 : Int), (100 : ℚ)),
        (2017, 2, 200)]).head?).map Prod.snd = some none ∧
    (calculate_mom_growth [((2017 : Int), (1 : Int), (100 : ℚ)),
        (2017, 2, 200)]).countP (fun x => x.2.isSome) = 1 := by
  have h := mom_growth_input_order
    [((2017 : Int), (1 : Int), (100 : ℚ)), (2017, 2, 200)]
    (by simp) (by norm_num)
  exact ⟨h.1, h.2.1, h.2.2.1⟩

/-! ### C3, C7: grouped revenue -/

/-- Keys of a pandas groupby: the distinct values of the key column, in
ascending key order (groupby sorts its keys). -/
def sortKeys {κ : Type} [DecidableEq κ] (le : κ → κ → Prop) [DecidableRel le]
    (l : List κ) : List κ :=
  List.insertionSort le l.dedup

/-- Membership in the groupby key list is membership in the key
column. -/
theorem mem_sortKeys {κ : Type} [DecidableEq κ] (le : κ → κ → Prop)
    [DecidableRel le] (l : List κ) (k : κ) : k ∈ sortKeys le l ↔ k ∈ l := by
  rw [sortKeys, (List.perm_insertionSort le l.dedup).mem_iff, List.mem_dedup]

/-- A group of a key that never occurs sums to zero. -/
theorem filter_key_sum_zero {α κ : Type} [DecidableEq κ] (rows : List α)
    (key : α → Option κ) (val : α → ℚ) (c : κ)
    (hc : c ∉ rows.filterMap key) :
    ((rows.filter (fun r => key r = some c)).map val).sum = 0 := by
  induction rows with
  | nil => rfl
  | cons r rs ih =>
      cases hkr : key r with
      | none =>
          rw [List.filterMap_cons, hkr] at hc
          simp only [List.filter_cons, hkr]
          simpa using ih hc
      | some b =>
          rw [List.filterMap_cons, hkr] at hc
          rw [List.mem_cons, not_or] at hc
          have hbc : b ≠ c := Ne.symm hc.1
          simp only [List.filter_cons, hkr, Option.some.injEq, hbc,
            decide_False]
          exact ih hc.2

/-- Adding v to the image of one key of a duplicate-free key list adds
v to the total. -/
theorem sum_map_if_add {κ : Type} [DecidableEq κ] (ks : List κ) (f : κ → ℚ)
    (c : κ) (v : ℚ) (hnd : ks.Nodup) (hm : c ∈ ks) :
    (ks.map (fun k => if c = k then v + f k else f k)).sum =
      v + (ks.map f).sum := by
  induction ks with
  | nil => cases hm
  | cons a ks ih =>
      rw [List.nodup_cons] at hnd
      rcases List.mem_cons.mp hm with rfl | hck
      · simp only [List.map_cons, List.sum_cons, eq_self_iff_true, if_true]
        have htail : ks.map (fun k => if c = k then v + f k else f k) =
            ks.map f := by
          apply List.map_congr_left
          intro k hk
          have : c ≠ k := fun h => hnd.1 (h ▸ hk)
          simp [this]
        rw [htail]
        ring
      · have hca : c ≠ a := fun h => hnd.1 (h ▸ hck)
        simp only [List.map_cons, List.sum_cons, if_neg hca]
        rw [ih hnd.2 hck]
        ring

/-- Partition of a value column by a nullable key: the group sums over
the distinct keys add up to the total over the rows with a non-null
key.  Rows with a null key belong to no group and are absent from the
total. -/
theorem sum_over_groups {α κ : Type} [DecidableEq κ] (rows : List α)
    (key : α → Option κ) (val : α → ℚ) :
    (((rows.filterMap key).dedup).map (fun k =>
        ((rows.filter (fun r => key r = some k)).map val).sum)).sum =
      ((rows.filter (fun r => (key r).isSome)).map val).sum := by
  induction rows with
  | nil => rfl
  | cons r rs ih =>
      cases hkr : key r with
      | none =>
          rw [List.filterMap_cons, hkr]
          have hgroups : ((rs.filterMap key).dedup).map (fun k =>
              (((r :: rs).filter (fun x => key x = some k)).map val).sum) =
              ((rs.filterMap key).dedup).map (fun k =>
              ((rs.filter (fun x => key x = some k)).map val).sum) := by
            apply List.map_congr_left
            intro k _
            simp [List.filter_cons, hkr]
          rw [hgroups, ih]
          simp [List.filter_cons, hkr]
      | some c =>
          rw [List.filterMap_cons, hkr]
          have hrhs : ((r :: rs).filter (fun x => (key x).isSome)).map val =
              val r :: (rs.filter (fun x => (key x).isSome)).map val := by
            simp [List.filter_cons, hkr]
          by_cases hc : c ∈ rs.filterMap key
          · rw [List.dedup_cons_of_mem hc]
            have hgroups : ((rs.filterMap key).dedup).map (fun k =>
                (((r :: rs).filter (fun x => key x = some k)).map val).sum) =
                ((rs.filterMap key).dedup).map (fun k =>
                if c = k then val r +
                  ((rs.filter (fun x => key x = some k)).map val).sum
                else ((rs.filter (fun x => key x = some k)).map val).sum) := by
              apply List.map_congr_left
              intro k _
              by_cases hck : c = k
              · subst hck
                simp [List.filter_cons, hkr]
              · have : ¬ (some c = some k : Prop) := by simpa using hck
                simp [List.filter_cons, hkr, hck, this]
            rw [hgroups, sum_map_if_add _ _ c (val r) (List.nodup_dedup _)
              (List.mem_dedup.mpr hc), ih, hrhs, List.sum_cons]
          · rw [List.dedup_cons_of_not_mem hc, List.map_cons, List.sum_cons]
            have hhead : (((r :: rs).filter
                (fun x => key x = some c)).map val).sum = val r := by
              simp only [List.filter_cons, hkr]
              simp only [decide_True, if_true]
              rw [List.map_cons, List.sum_cons,
                filter_key_sum_zero rs key val c hc, add_zero]
            have hgroups : ((rs.filterMap key).dedup).map (fun k =>
                (((r :: rs).filter (fun x => key x = some k)).map val).sum) =
                ((rs.filterMap key).dedup).map (fun k =>
                ((rs.filter (fun x => key x = some k)).map val).sum) := by
              apply List.map_congr_left
              intro k hk
              have hkc : c ≠ k := by
                intro h
                exact hc (h ▸ List.mem_dedup.mp hk)
              have : ¬ (some c = some k : Prop) := by simpa using hkc
              simp [List.filter_cons, hkr, this]
            rw [hhead, hgroups, ih, hrhs, List.sum_cons]

/-- Descending-revenue order on (category, revenue) pairs:
sort_values(ascending=False). -/
def revDesc (a b : String × ℚ) : Prop := b.2 ≤ a.2

instance : DecidableRel revDesc :=
  fun a b => inferInstanceAs (Decidable (b.2 ≤ a.2))

instance : IsTotal (String × ℚ) revDesc :=
  ⟨fun a b => le_total b.2 a.2⟩

instance : IsTrans (String × ℚ) revDesc :=
  ⟨fun _ _ _ h1 h2 => le_trans h2 h1⟩

/-- business_metrics.calculate_revenue_by_category:
groupby('product_category_name')['price'].sum() (the groupby drops the
rows whose key is null) then sort_values(ascending=False). -/
def calculate_revenue_by_category (sales_data : List SalesRow) :
    List (String × ℚ) :=
  List.insertionSort revDesc
    ((sortKeys (fun a b => a ≤ b)
        (sales_data.filterMap SalesRow.product_category_name)).map
      (fun c => (c, ((sales_data.filter
        (fun r => r.product_category_name = some c)).map SalesRow.price).sum)))

/-- Table refuting the null-group reading of revenue_by_category: one
row with a null category priced 10, one row of category a priced 5. -/
def exC3 : List SalesRow :=
  [mkRow 1 10 none none none, mkRow 2 5 (some "a") none none]

/-- C3 counterexample: the null-category row is dropped by the groupby,
so the output has no null group and the group revenues sum to 5 while
total_revenue is 15. -/
theorem revenue_by_category_drops_null :
    calculate_revenue_by_category exC3 = [("a", 5)] ∧
    calculate_total_revenue exC3 = 15 ∧
    ((calculate_revenue_by_category exC3).map Prod.snd).sum ≠
      calculate_total_revenue exC3 := by
  have h1 : calculate_revenue_by_category exC3 = [("a", 5)] := by
    rw [calculate_revenue_by_category]
    simp [exC3, mkRow, sortKeys, List.insertionSort, List.orderedInsert,
      List.dedup_cons_of_not_mem, List.filterMap_cons, List.filter_cons]
  have h2 : calculate_total_revenue exC3 = 15 := by
    norm_num [calculate_total_revenue, exC3, mkRow]
  refine ⟨h1, h2, ?_⟩
  rw [h1, h2]
  norm_num

/-- C3 (amended): revenue_by_category is sorted non-increasing by
revenue; its groups are exactly the distinct NON-null categories — a
null category never forms a group, its rows are dropped — and the group
revenues sum to the total_revenue of the subtable of rows with a
non-null category (hence to total_revenue of the whole table only when
no category is null). -/
theorem revenue_by_category_sorted_and_total (rows : List SalesRow) :
    List.Sorted revDesc (calculate_revenue_by_category rows) ∧
    ((calculate_revenue_by_category rows).map Prod.snd).sum =
      calculate_total_revenue
        (rows.filter (fun r => r.product_category_name.isSome)) ∧
    (∀ (c : String) (v : ℚ),
      (c, v) ∈ calculate_revenue_by_category rows ↔
        (some c ∈ rows.map SalesRow.product_category_name ∧
         v = ((rows.filter (fun r => r.product_category_name = some c)).map
           SalesRow.price).sum)) := by
  refine ⟨List.sorted_insertionSort revDesc _, ?_, ?_⟩
  · have hperm1 : ((calculate_revenue_by_category rows).map Prod.snd).Perm
        (((sortKeys (fun a b => a ≤ b)
            (rows.filterMap SalesRow.product_category_name)).map
          (fun c => (c, ((rows.filter
            (fun r => r.product_category_name = some c)).map
              SalesRow.price).sum))).map Prod.snd) :=
      (List.perm_insertionSort revDesc _).map Prod.snd
    rw [hperm1.sum_eq, List.map_map]
    have hperm2 : ((sortKeys (fun a b => a ≤ b)
        (rows.filterMap SalesRow.product_category_name)).map
          (Prod.snd ∘ (fun c => (c, ((rows.filter
            (fun r => r.product_category_name = some c)).map
              SalesRow.price).sum)))).Perm
        (((rows.filterMap SalesRow.product_category_name).dedup).map
          (Prod.snd ∘ (fun c => (c, ((rows.filter
            (fun r => r.product_category_name = some c)).map
              SalesRow.price).sum)))) :=
      (List.perm_insertionSort _ _).map _
    rw [hperm2.sum_eq]
    simpa [calculate_total_revenue] using
      sum_over_groups rows SalesRow.product_category_name SalesRow.price
  · intro c v
    rw [calculate_revenue_by_category,
      (List.perm_insertionSort revDesc _).mem_iff, List.mem_map]
    constructor
    · rintro ⟨k, hk, heq⟩
      rw [Prod.mk.injEq] at heq
      obtain ⟨rfl, rfl⟩ := heq
      refine ⟨?_, rfl⟩
      have := (mem_sortKeys _ _ k).mp hk
      rw [List.mem_filterMap] at this
      obtain ⟨r, hr, hrc⟩ := this
      rw [List.mem_map]
      exact ⟨r, hr, hrc⟩
    · rintro ⟨hmem, rfl⟩
      refine ⟨c, ?_, rfl⟩
      rw [mem_sortKeys, List.mem_filterMap]
      rw [List.mem_map] at hmem
      obtain ⟨r, hr, hrc⟩ := hmem
      exact ⟨r, hr, hrc⟩

/-- Result shape of calculate_revenue_by_period: [year, revenue],
[month, revenue] or [year, month, revenue] columns. -/
inductive PeriodRevenue where
  | byYear : List (Int × ℚ) → PeriodRevenue
  | byMonth : List (Int × ℚ) → PeriodRevenue
  | byYearMonth : List (Int × Int × ℚ) → PeriodRevenue
deriving DecidableEq, Repr

/-- Ascending order on (year, month) keys, as groupby(['year','month'])
sorts them. -/
def ymLe (a b : Int × Int) : Prop :=
  a.1 < b.1 ∨ (a.1 = b.1 ∧ a.2 ≤ b.2)

instance : DecidableRel ymLe :=
  fun a b => inferInstanceAs (Decidable (a.1 < b.1 ∨ (a.1 = b.1 ∧ a.2 ≤ b.2)))

/-- business_metrics.calculate_revenue_by_period: groups price sums by
year, by month, or by (year, month), and raises ValueError — the
design document's InvalidParameter — on any other period string. -/
def calculate_revenue_by_period (sales_data : List SalesRow)
    (period : String) : Except String PeriodRevenue :=
  if period = "year" then
    Except.ok (PeriodRevenue.byYear
      ((sortKeys (fun a b : Int => a ≤ b) (sales_data.map SalesRow.year)).map
        (fun y => (y, ((sales_data.filter (fun r => r.year = y)).map
          SalesRow.price).sum))))
  else if period = "month" then
    Except.ok (PeriodRevenue.byMonth
      ((sortKeys (fun a b : Int => a ≤ b) (sales_data.map SalesRow.month)).map
        (fun m => (m, ((sales_data.filter (fun r => r.month = m)).map
          SalesRow.price).sum))))
  else if period = "year-month" then
    Except.ok (PeriodRevenue.byYearMonth
      ((sortKeys ymLe (sales_data.map (fun r => (r.year, r.month)))).map
        (fun k => (k.1, k.2, ((sales_data.filter
          (fun r => r.year = k.1 ∧ r.month = k.2)).map SalesRow.price).sum))))
  else
    Except.error ("Invalid period: " ++ period ++
      ". Choose year, month, or year-month")

/-- Membership in a keyed group list: the pair (k, v) occurs exactly
when k is a key and v is the value attached to k. -/
theorem mem_map_pair {κ : Type} (ks : List κ) (g : κ → ℚ) (k : κ) (v : ℚ) :
    (k, v) ∈ ks.map (fun x => (x, g x)) ↔ (k ∈ ks ∧ v = g k) := by
  rw [List.mem_map]
  constructor
  · rintro ⟨a, ha, heq⟩
    rw [Prod.mk.injEq] at heq
    obtain ⟨rfl, rfl⟩ := heq
    exact ⟨ha, rfl⟩
  · rintro ⟨hk, rfl⟩
    exact ⟨k, hk, rfl⟩

/-- Membership in a (year, month)-keyed group list. -/
theorem mem_map_triple (ks : List (Int × Int)) (g : Int × Int → ℚ)
    (y m : Int) (v : ℚ) :
    (y, m, v) ∈ ks.map (fun k => (k.1, k.2, g k)) ↔
      ((y, m) ∈ ks ∧ v = g (y, m)) := by
  rw [List.mem_map]
  constructor
  · rintro ⟨a, ha, heq⟩
    rw [Prod.mk.injEq, Prod.mk.injEq] at heq
    obtain ⟨h1, h2, h3⟩ := heq
    have ham : a = (y, m) := by
      cases a
      simp only [Prod.mk.injEq]
      exact ⟨h1, h2⟩
    subst ham
    exact ⟨ha, h3.symm⟩
  · rintro ⟨hk, rfl⟩
    exact ⟨(y, m), hk, rfl⟩

/-- C7: revenue_by_period errors on every period outside {year, month,
year-month}; for each supported period it returns the sums of price
grouped by year, month, or (year, month), respectively — the groups are
exactly the values occurring in the corresponding columns. -/
theorem revenue_by_period_spec (rows : List SalesRow) :
    (∀ p : String, p ≠ "year" → p ≠ "month" → p ≠ "year-month" →
      calculate_revenue_by_period rows p =
        Except.error ("Invalid period: " ++ p ++
          ". Choose year, month, or year-month")) ∧
    (∃ ly, calculate_revenue_by_period rows "year" =
        Except.ok (PeriodRevenue.byYear ly) ∧
      ∀ y v, ((y, v) ∈ ly ↔ (y ∈ rows.map SalesRow.year ∧
        v = ((rows.filter (fun r => r.year = y)).map SalesRow.price).sum))) ∧
    (∃ lm, calculate_revenue_by_period rows "month" =
        Except.ok (PeriodRevenue.byMonth lm) ∧
      ∀ m v, ((m, v) ∈ lm ↔ (m ∈ rows.map SalesRow.month ∧
        v = ((rows.filter (fun r => r.month = m)).map SalesRow.price).sum))) ∧
    (∃ lym, calculate_revenue_by_period rows "year-month" =
        Except.ok (PeriodRevenue.byYearMonth lym) ∧
      ∀ y m v, ((y, m, v) ∈ lym ↔
        ((y, m) ∈ rows.map (fun r => (r.year, r.month)) ∧
         v = ((rows.filter (fun r => r.year = y ∧ r.month = m)).map
           SalesRow.price).sum))) := by
  refine ⟨?_, ?_, ?_, ?_⟩
  · intro p h1 h2 h3
    rw [calculate_revenue_by_period, if_neg h1, if_neg h2, if_neg h3]
  · refine ⟨(sortKeys (fun a b : Int => a ≤ b) (rows.map SalesRow.year)).map
      (fun y => (y, ((rows.filter (fun r => r.year = y)).map
        SalesRow.price).sum)), ?_, ?_⟩
    · rw [calculate_revenue_by_period, if_pos rfl]
    · intro y v
      rw [mem_map_pair, mem_sortKeys]
  · refine ⟨(sortKeys (fun a b : Int => a ≤ b) (rows.map SalesRow.month)).map
      (fun m => (m, ((rows.filter (fun r => r.month = m)).map
        SalesRow.price).sum)), ?_, ?_⟩
    · rw [calculate_revenue_by_period, if_neg (by decide), if_pos rfl]
    · intro m v
      rw [mem_map_pair, mem_sortKeys]
  · refine ⟨(sortKeys ymLe (rows.map (fun r => (r.year, r.month)))).map
      (fun k => (k.1, k.2, ((rows.filter
        (fun r => r.year = k.1 ∧ r.month = k.2)).map SalesRow.price).sum)),
      ?_, ?_⟩
    · rw [calculate_revenue_by_period, if_neg (by decide), if_neg (by decide),
        if_pos rfl]
    · intro y m v
      rw [mem_map_triple, mem_sortKeys]

theorem revenue_by_period_spec_witness :
    calculate_revenue_by_period [] "week" =
      Except.error ("Invalid period: " ++ "week" ++
        ". Choose year, month, or year-month") :=
  (revenue_by_period_spec []).1 "week" (by decide) (by decide) (by decide)

theorem filter_by_date_range_prog_frame_witness :
    (filter_by_date_range_prog [[mkRow 1 10 none none none]] 0
        2017 1 2017 3).1[0]? = [[mkRow 1 10 none none none]][0]? ∧
    (filter_by_date_range_prog [[mkRow 1 10 none none none]] 0
        2017 1 2017 3).1[
      (filter_by_date_range_prog [[mkRow 1 10 none none none]] 0
        2017 1 2017 3).2]? =
      some (filter_by_date_range
        ([[mkRow 1 10 none none none]].getD 0 []) 2017 1 2017 3) :=
  filter_by_date_range_prog_frame [[mkRow 1 10 none none none]] 0 0
    2017 1 2017 3 (by decide)
